import Mathlib

/-!
# Verification of the retrieval-augmented answer pipeline

Shallow embedding of the core chatbot pipeline of this repository
(`server.py`: `search_query_only`, `query_gemini`, the `/chat` handler's
answer path).  External services (sentence encoder, Pinecone index, Gemini
HTTP endpoint, googletrans) are modelled by an environment record carrying
their availability and the outcome of the single call the pipeline makes to
each of them; Python exceptions raised by a remote call are modelled as a
`none` outcome, caught exactly where the source catches them.
-/

namespace Chatbot

/-! ## String primitives

The Python string operations used by the pipeline, embedded as structural
recursion over `List Char` so that every definition evaluates by `decide`.
-/

/-- Embeds Python `list.isPrefixOf`-style prefix test on characters. -/
def listPrefix : List Char → List Char → Bool
  | [], _ => true
  | _ :: _, [] => false
  | a :: as, b :: bs => a == b && listPrefix as bs

/-- `listHasSub needle hay`: `needle` occurs contiguously inside `hay`.
Embeds the Python substring test `needle in hay`. -/
def listHasSub (needle : List Char) : List Char → Bool
  | [] => listPrefix needle []
  | c :: cs => listPrefix needle (c :: cs) || listHasSub needle cs

/-- Embeds Python `needle in hay` on strings. -/
def strContains (hay needle : String) : Bool :=
  listHasSub needle.data hay.data

/-- Embeds Python `str.lower()` (ASCII case folding, as `Char.toLower`). -/
def lowerStr (s : String) : String :=
  ⟨s.data.map Char.toLower⟩

/-- Embeds Python `str.strip()`: drop leading and trailing whitespace. -/
def strTrim (s : String) : String :=
  ⟨((s.data.dropWhile Char.isWhitespace).reverse.dropWhile Char.isWhitespace).reverse⟩

/-- Embeds Python `str.replace("?", "")`: remove every `?` character. -/
def stripQuestionMarks (s : String) : String :=
  ⟨s.data.filter (fun c => c ≠ '?')⟩

/-- Embeds Python `str.split()` (no separator): split on runs of whitespace,
discarding empty words.  `acc` holds the characters of the current word in
reverse. -/
def splitWhitespaceAux : List Char → List Char → List String
  | [], acc => if acc.isEmpty then [] else [⟨acc.reverse⟩]
  | c :: cs, acc =>
    if c.isWhitespace then
      (if acc.isEmpty then [] else [(⟨acc.reverse⟩ : String)]) ++ splitWhitespaceAux cs []
    else
      splitWhitespaceAux cs (c :: acc)

/-- Embeds Python `str.split()` with no arguments. -/
def splitWhitespace (s : String) : List String :=
  splitWhitespaceAux s.data []

/-! ## Data model -/

/-- One match returned by `index.query`: its cosine-similarity score
(`match.get("score", 0)`) and its metadata text
(`match.get("metadata", {}).get("text", "")`), with the dictionary
defaults already folded in. -/
structure Match where
  score : ℚ
  text : String
deriving DecidableEq, Repr

/-- The module-level dictionary `last_disease_query = {"text": None, "name": None}`
(the spec's `RetrievalState`): the text of the most recently returned passage
and the question that produced it. -/
structure RetrievalState where
  text : Option String
  name : Option String
deriving DecidableEq, Repr

/-- The initial state `{"text": None, "name": None}`. -/
def initialState : RetrievalState := ⟨none, none⟩

/-- The remote services the pipeline can contact. -/
inductive Service where
  | encoder
  | vectorIndex
  | generation
  | translation
deriving DecidableEq, Repr

/-- Environment of one request: availability of each optional service and the
outcome of the single call the pipeline makes to it.  A `none` outcome models
the Python call raising an exception (network error, bad status, malformed
body); the source catches these exactly where modelled below. -/
structure Env where
  /-- `model` is not `None` (SentenceTransformer loaded). -/
  modelAvailable : Bool
  /-- `index` is not `None` (Pinecone client initialised). -/
  indexAvailable : Bool
  /-- `model.encode(query)` returns without raising. -/
  encodeOk : Bool
  /-- Outcome of `index.query(...)`: the list of matches, or `none` if the
  call raised. -/
  queryResult : Option (List Match)
  /-- `GEMINI_API_KEY` (the empty string is falsy in Python). -/
  apiKey : String
  /-- Outcome of the Gemini HTTP call as a function of the prompt: the
  extracted `candidates[0].content.parts[0].text` on success, `none` on any
  network error, non-success status or malformed body. -/
  genResult : String → Option String
  /-- `translator` is not `None` (googletrans initialised). -/
  translatorAvailable : Bool
  /-- Outcome of `translator.translate(text, dest=lang).text`, or `none` if
  the call raised. -/
  transResult : String → String → Option String

/-! ## PassageRetriever: `search_query_only` (server.py lines 548-572) -/

/-- The similarity threshold, `threshold: float = 0.75`.  Written with
`mkRat` so that score comparisons evaluate by kernel reduction; see
`defaultThreshold_eq`. -/
def defaultThreshold : ℚ := mkRat 3 4

/-- `query.lower().replace("?", "").split()`: the lowercase keyword set of the
question. -/
def keywords (query : String) : List String :=
  splitWhitespace (stripQuestionMarks (lowerStr query))

/-- The `for match in results["matches"]` loop of `search_query_only`:
skip a candidate whose stripped text is empty or equal to `previous_text`;
accept the first remaining candidate with `score >= threshold` whose lowered
text contains some question keyword, updating `last_disease_query`; return
`None` with the state untouched when the loop exhausts the matches. -/
def searchLoop (threshold : ℚ) (prev : Option String) (kws : List String)
    (st : RetrievalState) (query : String) :
    List Match → Option String × RetrievalState
  | [] => (none, st)
  | m :: rest =>
    if strTrim m.text = "" ∨ some (strTrim m.text) = prev then
      searchLoop threshold prev kws st query rest
    else if threshold ≤ m.score ∧ kws.any (fun w => strContains (lowerStr (strTrim m.text)) w) then
      (some (strTrim m.text), ⟨some (strTrim m.text), some query⟩)
    else
      searchLoop threshold prev kws st query rest

/-- Result of `search_query_only`: the returned paragraph (or `None`), the
retrieval state after the call, and the remote services contacted. -/
structure SearchResult where
  passage : Option String
  state : RetrievalState
  calls : List Service
deriving DecidableEq, Repr

/-- `search_query_only(query, threshold=0.75)` (server.py lines 548-572):
return `None` if the encoder or index is unavailable; encode the query and
query the index inside `try`, returning `None` if either raises or if the
match list is empty; otherwise run the acceptance loop. -/
def search_query_only (env : Env) (st : RetrievalState) (query : String)
    (threshold : ℚ) : SearchResult :=
  if env.modelAvailable = false ∨ env.indexAvailable = false then
    ⟨none, st, []⟩
  else if env.encodeOk = false then
    ⟨none, st, [Service.encoder]⟩
  else
    match env.queryResult with
    | none => ⟨none, st, [Service.encoder, Service.vectorIndex]⟩
    | some ms =>
      if ms.isEmpty then ⟨none, st, [Service.encoder, Service.vectorIndex]⟩
      else
        ⟨(searchLoop threshold st.text (keywords query) st query ms).1,
          (searchLoop threshold st.text (keywords query) st query ms).2,
          [Service.encoder, Service.vectorIndex]⟩

/-! ## AnswerGenerator: `query_gemini` (server.py lines 574-600) -/

/-- Python truthiness of the `paragraph` argument: not `None` and not the
empty string. -/
def optTruthy : Option String → Bool
  | none => false
  | some s => s != ""

/-- The prompt built by `query_gemini`: the with-passage template when
`paragraph` is truthy, the plain medical-question template otherwise. -/
def gemini_prompt (paragraph : Option String) (question : String) : String :=
  if optTruthy paragraph then
    paragraph.getD "" ++ "\n\nUsing the above text, answer this question within 200 words maximum:\n\n" ++ question
  else
    "Answer this medical question in simple terms, within 200 words maximum:\n\n" ++ question

/-- The fixed safety disclaimer opening the fallback answer (the first two
adjacent string literals of `safe` in server.py lines 595-597). -/
def geminiDisclaimer : String :=
  "I can provide general medical information based on common knowledge. If this is urgent or serious, please consult a medical professional immediately. "

/-- The trailing note appended to the fallback answer when a paragraph had
been supplied (server.py line 599). -/
def referencedNote : String := "\n\n(Referenced content summary applied.)"

/-- The safe fallback answer of `query_gemini` (server.py lines 595-600):
the fixed disclaimer plus `You asked: <question>`, with the referenced-content
note appended when a truthy paragraph was supplied. -/
def fallback_answer (paragraph : Option String) (question : String) : String :=
  let safe := geminiDisclaimer ++ ("You asked: " ++ question)
  if optTruthy paragraph then
    safe ++ referencedNote
  else
    safe

/-- `query_gemini(paragraph, question)` (server.py lines 574-600): when
`GEMINI_API_KEY` is set, POST the prompt to the generation endpoint and
return the extracted text on success; on any failure of that call, or when no
key is set, return the safe fallback answer.  Also reports whether the
generation service was contacted. -/
def query_gemini (env : Env) (paragraph : Option String) (question : String) :
    String × List Service :=
  let prompt := gemini_prompt paragraph question
  if env.apiKey ≠ "" then
    match env.genResult prompt with
    | some text => (text, [Service.generation])
    | none => (fallback_answer paragraph question, [Service.generation])
  else
    (fallback_answer paragraph question, [])

/-! ## Translator: the translation step of the `/chat` handler
(server.py lines 772-778) -/

/-- The inline translation step of `chat`: attempt translation only when the
target language is truthy, differs from `"en"`, and the translator client is
available; on a failed attempt append the warning suffix to the untranslated
answer. -/
def translateStep (env : Env) (text lang : String) : String × List Service :=
  if lang ≠ "" ∧ lang ≠ "en" ∧ env.translatorAvailable = true then
    match env.transResult text lang with
    | some t => (t, [Service.translation])
    | none => (text ++ " ⚠ Translation failed.", [Service.translation])
  else
    (text, [])

/-! ## AnswerPipeline: the `/chat` handler's answer path
(server.py lines 752-797)

The handler's session check and the persistence of the exchange to MySQL are
external collaborators excluded from the core; the modelled slice is the
computation of the answer string from the question and target language. -/

/-- Result of one `/chat` request: the answer string, the retrieval state
after the request, and the remote services contacted. -/
structure ChatResult where
  answer : String
  state : RetrievalState
  calls : List Service
deriving DecidableEq, Repr

/-- The `/chat` handler's validation message for an empty question. -/
def validationMessage : String := "⚠ Please enter a valid question."

/-- The answer path of the `/chat` handler (server.py lines 752-797):
strip the question; reject it with the validation message if empty; otherwise
retrieve a passage (exceptions degrade to no passage), generate the answer,
and translate it when a non-English target language is requested. -/
def chat (env : Env) (st : RetrievalState) (rawQuery lang : String) : ChatResult :=
  let query := strTrim rawQuery
  if query = "" then
    ⟨validationMessage, st, []⟩
  else
    let s := search_query_only env st query defaultThreshold
    let g := query_gemini env s.passage query
    let t := translateStep env g.1 lang
    ⟨t.1, s.state, s.calls ++ g.2 ++ t.2⟩

/-- Spec-side result record of the answer pipeline:
`AnswerResult == (text, usedPassage)` — the final answer string and whether a
retrieved passage was used. -/
structure AnswerResult where
  text : String
  usedPassage : Bool
deriving DecidableEq, Repr

/-- Spec-side reading of one `/chat` request as the `AnswerPipeline.answer`
contract: the answer text the handler produces, paired with whether the
retriever returned a passage for the (stripped) question. -/
def answerResult (env : Env) (st : RetrievalState) (q lang : String) : AnswerResult :=
  ⟨(chat env st q lang).answer,
    (search_query_only env st (strTrim q) defaultThreshold).passage.isSome⟩

/-- Test environment: every service is available, the index returns `ms`, and
the generation and translation calls both fail. -/
def envWith (ms : List Match) : Env :=
  ⟨true, true, true, some ms, "key", fun _ => none, true, fun _ _ => none⟩

/-- Test environment: every service is available, the index returns `ms`, the
generation call succeeds with `resp`, and the translation call fails. -/
def envWithGen (ms : List Match) (resp : String) : Env :=
  ⟨true, true, true, some ms, "key", fun _ => some resp, true, fun _ _ => none⟩

/-- The combined acceptance test of one iteration of the loop of
`search_query_only`: the stripped candidate text is nonempty, differs from
`previous_text`, the score clears the threshold, and some question keyword
occurs in the lowered candidate text. -/
def accepts (thr : ℚ) (prev : Option String) (kws : List String) (m : Match) : Bool :=
  (strTrim m.text != "") && (some (strTrim m.text) != prev)
    && decide (thr ≤ m.score)
    && kws.any (fun w => strContains (lowerStr (strTrim m.text)) w)

/-! ## Helper lemmas -/

/-- `defaultThreshold` is the source's literal `0.75`. -/
theorem defaultThreshold_eq : defaultThreshold = 3 / 4 := by
  unfold defaultThreshold
  rw [Rat.mkRat_eq_div]
  norm_num

/-- The loop of `search_query_only` returns the first match passing the
combined acceptance test, updating the state to its stripped text and the
query; if none passes, it returns `none` and the untouched state. -/
theorem searchLoop_eq_find (thr : ℚ) (prev : Option String) (kws : List String)
    (st : RetrievalState) (q : String) (ms : List Match) :
    searchLoop thr prev kws st q ms =
      match ms.find? (accepts thr prev kws) with
      | some m => (some (strTrim m.text), ⟨some (strTrim m.text), some q⟩)
      | none => (none, st) := by
  induction ms with
  | nil => rfl
  | cons m rest ih =>
    by_cases h1 : strTrim m.text = "" ∨ some (strTrim m.text) = prev
    · have ha : accepts thr prev kws m = false := by
        rcases h1 with h | h <;> simp [accepts, h]
      rw [List.find?_cons, ha]
      simp only [searchLoop]
      rw [if_pos h1]
      exact ih
    · have h1a : strTrim m.text ≠ "" := fun h => h1 (Or.inl h)
      have h1b : some (strTrim m.text) ≠ prev := fun h => h1 (Or.inr h)
      by_cases h2 : thr ≤ m.score ∧
          kws.any (fun w => strContains (lowerStr (strTrim m.text)) w) = true
      · have ha : accepts thr prev kws m = true := by
          simp [accepts, h1a, h1b, h2.1, h2.2]
        rw [List.find?_cons, ha]
        simp only [searchLoop]
        rw [if_neg h1, if_pos h2]
      · have ha : accepts thr prev kws m = false := by
          rcases not_and_or.mp h2 with h | h
          · simp [accepts, h]
          · simp [accepts, eq_false_of_ne_true h]
        rw [List.find?_cons, ha]
        simp only [searchLoop]
        rw [if_neg h1, if_neg h2]
        exact ih

/-- The loop either leaves the state untouched and returns `none`, or returns
some nonempty stripped text that differs from `previous_text` and writes it,
together with the query, into the state. -/
theorem searchLoop_cases (thr : ℚ) (prev : Option String) (kws : List String)
    (st : RetrievalState) (q : String) (ms : List Match) :
    searchLoop thr prev kws st q ms = (none, st) ∨
      ∃ p, p ≠ "" ∧ some p ≠ prev ∧
        searchLoop thr prev kws st q ms = (some p, ⟨some p, some q⟩) := by
  rw [searchLoop_eq_find]
  cases hf : ms.find? (accepts thr prev kws) with
  | none => left; rfl
  | some m =>
    right
    have ha : accepts thr prev kws m = true := List.find?_some hf
    have h1 : strTrim m.text ≠ "" := by
      intro h; simp [accepts, h] at ha
    have h2 : some (strTrim m.text) ≠ prev := by
      intro h; simp [accepts, h] at ha
    exact ⟨strTrim m.text, h1, h2, rfl⟩

/-- `search_query_only` either returns `none` with the state untouched, or
returns some nonempty passage text that differs from the stored last text and
records it, with the query, in the state. -/
theorem search_state_cases (env : Env) (st : RetrievalState) (q : String) (thr : ℚ) :
    ((search_query_only env st q thr).passage = none ∧
      (search_query_only env st q thr).state = st) ∨
    ∃ p, p ≠ "" ∧ some p ≠ st.text ∧
      (search_query_only env st q thr).passage = some p ∧
      (search_query_only env st q thr).state = ⟨some p, some q⟩ := by
  unfold search_query_only
  by_cases h1 : env.modelAvailable = false ∨ env.indexAvailable = false
  · rw [if_pos h1]; left; exact ⟨rfl, rfl⟩
  · rw [if_neg h1]
    by_cases h2 : env.encodeOk = false
    · rw [if_pos h2]; left; exact ⟨rfl, rfl⟩
    · rw [if_neg h2]
      cases hq : env.queryResult with
      | none => left; exact ⟨rfl, rfl⟩
      | some ms =>
        dsimp only
        by_cases h3 : ms.isEmpty
        · rw [if_pos h3]; left; exact ⟨rfl, rfl⟩
        · rw [if_neg h3]
          rcases searchLoop_cases thr st.text (keywords q) st q ms with h | ⟨p, hp1, hp2, h⟩
          · left; constructor <;> simp [h]
          · right; exact ⟨p, hp1, hp2, by simp [h], by simp [h]⟩

/-- With an empty keyword list the acceptance loop rejects every candidate:
`any` over an empty list is `false`. -/
theorem searchLoop_no_keywords (thr : ℚ) (prev : Option String)
    (st : RetrievalState) (q : String) (ms : List Match) :
    searchLoop thr prev [] st q ms = (none, st) := by
  induction ms with
  | nil => rfl
  | cons m rest ih =>
    simp only [searchLoop]
    by_cases h1 : strTrim m.text = "" ∨ some (strTrim m.text) = prev
    · rw [if_pos h1]; exact ih
    · rw [if_neg h1, if_neg (by simp)]; exact ih

/-! ## Claims -/

/-- C2: repeat-suppression invariant.  A passage returned by
`search_query_only` never equals the `lastText` stored in the retrieval state
the call starts from; consequently, two sequential retrieve calls (the second
starting from the state the first produced) never return the same passage
text. -/
theorem c2_repeat_suppression :
    (∀ env st q p,
        (search_query_only env st q defaultThreshold).passage = some p →
        st.text ≠ some p) ∧
    (∀ env₁ env₂ st q₁ q₂ p,
        (search_query_only env₂ (search_query_only env₁ st q₁ defaultThreshold).state
            q₂ defaultThreshold).passage = some p →
        (search_query_only env₁ st q₁ defaultThreshold).passage ≠ some p) := by
  have key : ∀ env st q p,
      (search_query_only env st q defaultThreshold).passage = some p →
      st.text ≠ some p := by
    intro env st q p hp
    rcases search_state_cases env st q defaultThreshold with ⟨h, _⟩ | ⟨p', _, hne, hp', _⟩
    · rw [h] at hp; cases hp
    · rw [hp'] at hp
      injection hp with hpp
      subst hpp
      exact fun h => hne h.symm
  refine ⟨key, ?_⟩
  intro env₁ env₂ st q₁ q₂ p h2 h1
  have hne := key env₂ (search_query_only env₁ st q₁ defaultThreshold).state q₂ p h2
  rcases search_state_cases env₁ st q₁ defaultThreshold with ⟨hp, _⟩ | ⟨p', _, _, hp', hs'⟩
  · rw [hp] at h1; cases h1
  · rw [hp'] at h1
    injection h1 with hpp
    subst hpp
    rw [hs'] at hne
    exact hne rfl

/-- Witness for C2 at concrete inputs: with one indexed passage `"ab"`, a
first query `"zz?"` with no keyword overlap returns nothing, and the second
query `"ab?"` returns `"ab"`, which the theorem guarantees differs from both
the stored last text and the first answer. -/
theorem c2_witness :
    initialState.text ≠ some "ab" ∧
    (search_query_only (envWith [⟨mkRat 9 10, "ab"⟩]) initialState "zz?"
        defaultThreshold).passage ≠ some "ab" := by
  constructor
  · exact c2_repeat_suppression.1 (envWith [⟨mkRat 9 10, "ab"⟩]) initialState "ab?" "ab"
      (by decide)
  · exact c2_repeat_suppression.2 (envWith [⟨mkRat 9 10, "ab"⟩])
      (envWith [⟨mkRat 9 10, "ab"⟩]) initialState "zz?" "ab?" "ab" (by decide)

/-- C5: if the encoder is unavailable, the index is unavailable, encoding
raises, the index query raises, or the query returns zero matches,
`search_query_only` returns `None` and leaves the retrieval state unchanged
(the embedding is a total function: the source catches these failures and
never lets an exception escape). -/
theorem c5_retrieval_unavailable_null (env : Env) (st : RetrievalState)
    (q : String) (thr : ℚ)
    (h : env.modelAvailable = false ∨ env.indexAvailable = false ∨
      env.encodeOk = false ∨ env.queryResult = none ∨ env.queryResult = some []) :
    (search_query_only env st q thr).passage = none ∧
      (search_query_only env st q thr).state = st := by
  by_cases h1 : env.modelAvailable = false ∨ env.indexAvailable = false
  · unfold search_query_only; rw [if_pos h1]; exact ⟨rfl, rfl⟩
  · by_cases h2 : env.encodeOk = false
    · unfold search_query_only; rw [if_neg h1, if_pos h2]; exact ⟨rfl, rfl⟩
    · have hq : env.queryResult = none ∨ env.queryResult = some [] := by
        rcases h with h | h | h | h | h
        · exact absurd (Or.inl h) h1
        · exact absurd (Or.inr h) h1
        · exact absurd h h2
        · exact Or.inl h
        · exact Or.inr h
      unfold search_query_only
      rw [if_neg h1, if_neg h2]
      rcases hq with h | h <;> rw [h]
      · exact ⟨rfl, rfl⟩
      · simp

/-- Witness for C5: the index returns zero matches and the retriever returns
`None` with the state unchanged. -/
theorem c5_witness :
    (envWith []).queryResult = some [] ∧
    (search_query_only (envWith []) initialState "ab?" defaultThreshold).passage = none ∧
    (search_query_only (envWith []) initialState "ab?" defaultThreshold).state = initialState :=
  ⟨rfl, c5_retrieval_unavailable_null (envWith []) initialState "ab?" defaultThreshold
    (Or.inr (Or.inr (Or.inr (Or.inr rfl))))⟩

/-- C9: a question whose keyword set is empty (for instance one consisting
only of `?` characters and whitespace) makes the keyword-overlap test reject
every candidate, so the retriever returns `None` regardless of the scores and
texts of the matches, leaving the state unchanged. -/
theorem c9_empty_keywords_null (env : Env) (st : RetrievalState) (q : String)
    (h : keywords q = []) :
    (search_query_only env st q defaultThreshold).passage = none ∧
      (search_query_only env st q defaultThreshold).state = st := by
  by_cases h1 : env.modelAvailable = false ∨ env.indexAvailable = false
  · unfold search_query_only; rw [if_pos h1]; exact ⟨rfl, rfl⟩
  · by_cases h2 : env.encodeOk = false
    · unfold search_query_only; rw [if_neg h1, if_pos h2]; exact ⟨rfl, rfl⟩
    · unfold search_query_only
      rw [if_neg h1, if_neg h2]
      cases hq : env.queryResult with
      | none => exact ⟨rfl, rfl⟩
      | some ms =>
        dsimp only
        by_cases h3 : ms.isEmpty
        · rw [if_pos h3]; exact ⟨rfl, rfl⟩
        · rw [if_neg h3, h, searchLoop_no_keywords]
          exact ⟨rfl, rfl⟩

/-- Witness for C9: the question `"?? ?"` yields no keywords, so even a
high-scoring match is rejected. -/
theorem c9_witness :
    keywords "?? ?" = [] ∧
    (search_query_only (envWith [⟨mkRat 9 10, "ab"⟩]) initialState "?? ?"
        defaultThreshold).passage = none :=
  ⟨by decide,
    (c9_empty_keywords_null (envWith [⟨mkRat 9 10, "ab"⟩]) initialState "?? ?"
      (by decide)).1⟩

/-- C1 counterexample: the literal claim — `search_query_only` returns the
text of the FIRST match whose score is at least 0.75 and whose lowercased
text contains a question keyword — fails when the retrieval state is taken
into account.  Here the first match `(0.9, " ab ")` satisfies both stated
criteria for the question `"ab cd?"`, yet the call returns `"cd"`: the first
match is skipped because its stripped text equals the stored `lastText`, and
the returned text is the stripped (not raw) text of the second match. -/
theorem c1_counterexample :
    (defaultThreshold ≤ mkRat 9 10 ∧
      (keywords "ab cd?").any
        (fun w => strContains (lowerStr " ab ") w) = true) ∧
    (search_query_only (envWith [⟨mkRat 9 10, " ab "⟩, ⟨mkRat 8 10, " cd "⟩])
        ⟨some "ab", some "ab cd?"⟩ "ab cd?" defaultThreshold).passage ≠ some " ab " ∧
    (search_query_only (envWith [⟨mkRat 9 10, " ab "⟩, ⟨mkRat 8 10, " cd "⟩])
        ⟨some "ab", some "ab cd?"⟩ "ab cd?" defaultThreshold).passage = some "cd" := by
  refine ⟨⟨by decide, by decide⟩, by decide, by decide⟩

/-- C1 (amended): whenever encoder and index are available and the index
query succeeds with match list `ms`, `search_query_only` scans `ms` in the
returned order and returns the STRIPPED text of the first candidate whose
stripped text is nonempty and differs from the stored `lastText`, whose score
is at least the 0.75 threshold, and in which at least one keyword of the
question (lowercased, `?` stripped, split on whitespace) occurs as a
substring of the lowercased stripped text; on acceptance the state becomes
`(lastText := that stripped text, lastQuestion := question)`; if no candidate
qualifies it returns `None` with the state unchanged. -/
theorem c1_retrieval_first_match (env : Env) (st : RetrievalState) (q : String)
    (ms : List Match)
    (hm : env.modelAvailable = true) (hi : env.indexAvailable = true)
    (he : env.encodeOk = true) (hq : env.queryResult = some ms) :
    search_query_only env st q defaultThreshold =
      match ms.find? (accepts defaultThreshold st.text (keywords q)) with
      | some m =>
        ⟨some (strTrim m.text), ⟨some (strTrim m.text), some q⟩,
          [Service.encoder, Service.vectorIndex]⟩
      | none => ⟨none, st, [Service.encoder, Service.vectorIndex]⟩ := by
  have h1 : ¬(env.modelAvailable = false ∨ env.indexAvailable = false) := by
    simp [hm, hi]
  have h2 : ¬(env.encodeOk = false) := by simp [he]
  unfold search_query_only
  rw [if_neg h1, if_neg h2, hq]
  dsimp only
  cases ms with
  | nil => rfl
  | cons a l =>
    rw [if_neg (by simp : ¬((a :: l).isEmpty = true))]
    rw [searchLoop_eq_find]
    cases hf : (a :: l).find? (accepts defaultThreshold st.text (keywords q)) with
    | none => rfl
    | some m => rfl

/-- Witness for the amended C1: with matches `(0.9, "ab")` and
`(0.8, "ab cd")` and question `"ab?"` from the initial state, the first match
is accepted and returned. -/
theorem c1_witness :
    search_query_only (envWith [⟨mkRat 9 10, "ab"⟩, ⟨mkRat 8 10, "ab cd"⟩])
        initialState "ab?" defaultThreshold =
      ⟨some "ab", ⟨some "ab", some "ab?"⟩,
        [Service.encoder, Service.vectorIndex]⟩ := by
  have h := c1_retrieval_first_match
    (envWith [⟨mkRat 9 10, "ab"⟩, ⟨mkRat 8 10, "ab cd"⟩]) initialState "ab?"
    [⟨mkRat 9 10, "ab"⟩, ⟨mkRat 8 10, "ab cd"⟩] rfl rfl rfl rfl
  rw [h]
  decide

/-- C3: a question that is empty or whitespace-only (it strips to the empty
string) makes the `/chat` handler return the validation message immediately:
no remote service is contacted (`calls = []`) and the retrieval state is not
mutated — for every environment, so the result is independent of every
remote service. -/
theorem c3_empty_question_validation (env : Env) (st : RetrievalState)
    (q lang : String) (h : strTrim q = "") :
    chat env st q lang = ⟨validationMessage, st, []⟩ := by
  simp [chat, h]

/-- Witness for C3: three spaces strip to the empty string and produce the
validation message with no calls and no state change. -/
theorem c3_witness :
    strTrim "   " = "" ∧
    chat (envWith []) initialState "   " "en" = ⟨validationMessage, initialState, []⟩ :=
  ⟨by decide, c3_empty_question_validation (envWith []) initialState "   " "en" (by decide)⟩

/-- C4: whenever the generation call fails — no API key, or the HTTP call for
the built prompt fails in any way — `query_gemini` returns the deterministic
fallback: the fixed disclaimer, then `You asked: <question>`, then the
referenced-content note exactly when a passage was supplied.  (The embedding
is a total function: the source catches every exception of the call.)  The
hypothesis `para ≠ some ""` records that a supplied passage is a nonempty
text, which is what the retriever produces. -/
theorem c4_generation_fallback (env : Env) (para : Option String) (q : String)
    (hp : para ≠ some "")
    (hfail : env.apiKey = "" ∨ env.genResult (gemini_prompt para q) = none) :
    (query_gemini env para q).1 =
      geminiDisclaimer ++ ("You asked: " ++ q) ++
        (if para.isSome then referencedNote else "") := by
  have hfb : (query_gemini env para q).1 = fallback_answer para q := by
    unfold query_gemini
    rcases hfail with h | h
    · rw [if_neg (by simp [h])]
    · by_cases hk : env.apiKey ≠ ""
      · rw [if_pos hk]
        rw [h]
      · rw [if_neg hk]
  rw [hfb]
  unfold fallback_answer
  cases para with
  | none => simp [optTruthy, String.append_empty]
  | some s =>
    have hs : s ≠ "" := fun hh => hp (by rw [hh])
    simp [optTruthy, hs]

/-- Witness for C4: with a passage `"p"` and a failing generation call, the
fallback carries `You asked: hi` and the referenced-content note. -/
theorem c4_witness :
    (envWith []).genResult (gemini_prompt (some "p") "hi") = none ∧
    (query_gemini (envWith []) (some "p") "hi").1 =
      geminiDisclaimer ++ ("You asked: " ++ "hi") ++
        (if (some "p" : Option String).isSome then referencedNote else "") :=
  ⟨rfl, c4_generation_fallback (envWith []) (some "p") "hi" (by decide) (Or.inr rfl)⟩

/-- C6: for every non-empty (after stripping) question, the answer the `/chat`
handler produces is exactly the composition
`translate(generate(retrieve(question), question), language)` and its state
is the retrieval state left by `retrieve`; and in the concrete end-to-end
scenario — question "What are symptoms of diabetes?", index returning zero
matches, generation returning "Diabetes symptoms include thirst and fatigue.",
language "en" — the spec-side answer record is exactly that text with
`usedPassage = false`. -/
theorem c6_pipeline_composition :
    (∀ env st q lang, strTrim q ≠ "" →
      (chat env st q lang).answer =
        (translateStep env
          (query_gemini env
            (search_query_only env st (strTrim q) defaultThreshold).passage
            (strTrim q)).1 lang).1 ∧
      (chat env st q lang).state =
        (search_query_only env st (strTrim q) defaultThreshold).state) ∧
    answerResult (envWithGen [] "Diabetes symptoms include thirst and fatigue.")
        initialState "What are symptoms of diabetes?" "en" =
      ⟨"Diabetes symptoms include thirst and fatigue.", false⟩ := by
  constructor
  · intro env st q lang h
    simp only [chat]
    rw [if_neg h]
    exact ⟨rfl, rfl⟩
  · decide

/-- Witness for C6 at a concrete nonempty question. -/
theorem c6_witness :
    strTrim "ab?" ≠ "" ∧
    (chat (envWith []) initialState "ab?" "en").answer =
      (translateStep (envWith [])
        (query_gemini (envWith [])
          (search_query_only (envWith []) initialState (strTrim "ab?")
            defaultThreshold).passage
          (strTrim "ab?")).1 "en").1 :=
  ⟨by decide,
    (c6_pipeline_composition.1 (envWith []) initialState "ab?" "en" (by decide)).1⟩

/-- C7: the translation step is the identity on the answer text when the
target language is `"en"`, and also — for every target language — when the
translation backend is unavailable. -/
theorem c7_translate_identity :
    (∀ env text, (translateStep env text "en").1 = text) ∧
    (∀ env text lang, env.translatorAvailable = false →
      (translateStep env text lang).1 = text) := by
  constructor
  · intro env text
    unfold translateStep
    rw [if_neg (by simp)]
  · intro env text lang h
    unfold translateStep
    by_cases hc : lang ≠ "" ∧ lang ≠ "en" ∧ env.translatorAvailable = true
    · rw [hc.2.2] at h; cases h
    · rw [if_neg hc]

/-- Witness for C7: with the translation backend unavailable, a Hindi request
leaves the text unchanged. -/
theorem c7_witness :
    ({ envWith [] with translatorAvailable := false } : Env).translatorAvailable = false ∧
    (translateStep { envWith [] with translatorAvailable := false } "hola" "hi").1 = "hola" :=
  ⟨rfl, c7_translate_identity.2 { envWith [] with translatorAvailable := false } "hola" "hi" rfl⟩

/-- C8: for a truthy non-English target language with the translator
available, a failing translation attempt yields the original text with the
warning suffix appended (the source catches the exception, so nothing is
raised to the caller). -/
theorem c8_translation_failure_suffix (env : Env) (text lang : String)
    (h1 : lang ≠ "") (h2 : lang ≠ "en") (h3 : env.translatorAvailable = true)
    (h4 : env.transResult text lang = none) :
    (translateStep env text lang).1 = text ++ " ⚠ Translation failed." := by
  unfold translateStep
  rw [if_pos ⟨h1, h2, h3⟩]
  rw [h4]

/-- Witness for C8: a failing Hindi translation of `"abc"` appends the
warning suffix. -/
theorem c8_witness :
    (envWith []).transResult "abc" "hi" = none ∧
    (translateStep (envWith []) "abc" "hi").1 = "abc" ++ " ⚠ Translation failed." :=
  ⟨rfl, c8_translation_failure_suffix (envWith []) "abc" "hi" (by decide) (by decide) rfl rfl⟩

/-- C10: frame property of the retriever.  Either the retrieval state is left
exactly as it was (in particular whenever the call returns `None`), or the
call returned an accepted passage `p` and the state is exactly
`(lastText := p, lastQuestion := question)`. -/
theorem c10_state_frame (env : Env) (st : RetrievalState) (q : String) (thr : ℚ) :
    (search_query_only env st q thr).state = st ∨
    ∃ p, (search_query_only env st q thr).passage = some p ∧
      (search_query_only env st q thr).state = ⟨some p, some q⟩ := by
  rcases search_state_cases env st q thr with ⟨_, h⟩ | ⟨p, _, _, hp, hs⟩
  · left; exact h
  · right; exact ⟨p, hp, hs⟩

end Chatbot

